import Mathlib

/-!
# sysdig_scheduler: a shallow embedding of the scheduling loop

The Go program (`main.go`, `kubernetes/kubernetes.go`, `kubernetes/kubeNode.go`) is
embedded as pure Lean functions.

* A Go `error` is an `Option String` (`none` is `nil`).
* A `float64` metric value is a rational number: the values come out of
  `encoding/json`, which only produces finite floats, and on finite floats `==` and `<`
  are the comparisons of the rationals they denote.
* Every call that leaves the process (telemetry query, orchestrator request, log line,
  line on standard output) is recorded, in order, in a list of `Call`s.
* The external collaborators (telemetry backend, orchestrator transport, goroutine
  completion order) are fields of an environment `Env`.
* A Go panic is the `Outcome.panic` result.
-/

namespace SysdigScheduler

/-- Go `error`: `none` is `nil`, `some msg` is an error whose `Error()` is `msg`. -/
abbrev GoError := Option String

/-- JSON values as far as the binding body needs them: strings and objects. A Go
`map[string]T` is an object, an unordered set of members; the members are listed in
the order of the source's map literal. -/
inductive Json where
  | str (s : String)
  | obj (members : List (String × Json))
deriving Repr

/-- Everything the program does that is visible outside the process. -/
inductive Call where
  /-- Call `sysdigApi.GetData(metrics, start, end, sampling, filter, source)`. -/
  | GetData (start stop sampling : Int) (filter source : String)
  /-- Call `api.Request(httpMethod, apiMethod, values, body)` of `kubernetes.go`
  (`values == nil` is the empty list, `body == nil` is `none`). -/
  | Request (httpMethod apiMethod : String) (values : List (String × String))
      (body : Option Json)
  /-- Call of `log.Println` or `log.Printf`, with the text written. -/
  | Log (msg : String)
  /-- Call `fmt.Println("Scheduling", name)`. -/
  | PrintScheduling (name : String)
  /-- Call `fmt.Println("Best node found: ", name, time)`. -/
  | PrintBestNode (name : String) (time : ℚ)
deriving Repr

/-- Telemetry probes are the `GetData` calls. -/
def Call.isProbe : Call → Bool
  | .GetData .. => true
  | _ => false

/-- Bind calls are the `POST` requests (only `CreateNamespacedBinding` posts). -/
def Call.isBind : Call → Bool
  | .Request m _ _ _ => m == "POST"
  | _ => false

/-- The response of the telemetry backend: status line and the result of decoding the
body into `metricData` (`Data[i].D` is the `i`-th inner list). -/
structure MetricDataResponse where
  StatusCode : Int
  Status : String
  Body : Except String (List (List ℚ))

/-- The telemetry backend: the result of `GetData` for a given window, filter and source. -/
abbrev Sysdig := Int → Int → Int → String → String → Except String MetricDataResponse

/-- Function `getRequestTime` (main.go 38-71): result `(requestTime, err)` and the
calls made. -/
def getRequestTime (sysdigApi : Sysdig) (hostname : String) : (ℚ × GoError) × List Call :=
  let hostFilter := "host.hostName = '" ++ hostname ++ "'"
  let start : Int := -60
  let stop : Int := 0
  let sampling : Int := 60
  let calls := [Call.GetData start stop sampling hostFilter "host"]
  match sysdigApi start stop sampling hostFilter "host" with
  | .error e => ((0, some e), calls)
  | .ok metricDataResponse =>
    if metricDataResponse.StatusCode ≠ 200 then
      ((0, some ("Metric data response: " ++ metricDataResponse.Status ++ "\n")), calls)
    else
      match metricDataResponse.Body with
      | .error e => ((0, some e), calls)
      | .ok ((d :: _) :: _) => ((d, none), calls)
      | .ok _ => ((0, some "no data found with those parameters"), calls)

/-- The record sent on the two channels of `getBestRequestTime` (main.go 79-83). -/
structure nodeStats where
  name : String
  time : ℚ
  err : GoError
deriving DecidableEq, Repr

/-- The order in which the goroutines launched for a node list deliver their result:
any rearrangement of the list. -/
structure Schedule where
  order : List String → List String
  perm : ∀ nodes, (order nodes).Perm nodes

/-- Goroutines finish in launch order. -/
def Schedule.fifo : Schedule := ⟨fun l => l, fun _ => List.Perm.refl _⟩

/-- Goroutines finish in reverse launch order. -/
def Schedule.lifo : Schedule := ⟨List.reverse, fun l => List.reverse_perm l⟩

/-- The body of one goroutine (main.go 94-103): the sample it sends, on the success
channel when `err` is `none` and on the error channel otherwise. -/
def probeNode (sysdigApi : Sysdig) (nodeName : String) : nodeStats :=
  match (getRequestTime sysdigApi nodeName).1 with
  | (requestTime, none) => { name := nodeName, time := requestTime, err := none }
  | (_, some e) => { name := nodeName, time := 0, err := some e }

/-- Contents of `nodeStatsChannel` after `wg.Wait()`, in arrival order. -/
def nodeStatsChannel (sysdigApi : Sysdig) (sched : Schedule) (nodes : List String) :
    List nodeStats :=
  ((sched.order nodes).map (probeNode sysdigApi)).filter (fun s => s.err.isNone)

/-- Contents of `nodeStatsErrorsChannel` after `wg.Wait()`, in arrival order. -/
def nodeStatsErrorsChannel (sysdigApi : Sysdig) (sched : Schedule) (nodes : List String) :
    List nodeStats :=
  ((sched.order nodes).map (probeNode sysdigApi)).filter (fun s => s.err.isSome)

/-- One iteration of the selection loop (main.go 113-119) on the pair
`(bestNodeFound, lessNodeTime)`. -/
def selectStep (acc : String × ℚ) (node : nodeStats) : String × ℚ :=
  if acc.2 = -1 then (node.name, node.time)
  else if node.time < acc.2 then (node.name, node.time)
  else acc

/-- The selection loop (main.go 110-120): `lessNodeTime` starts at `-1` and
`bestNodeFound` at the zero value `""`. -/
def selectLoop (channel : List nodeStats) : String × ℚ :=
  channel.foldl selectStep ("", -1)

/-- The tail of `getBestRequestTime` once the channels are closed (main.go 110-130):
selection, then the `bestNodeFound == ""` test. -/
def selectBest (channel : List nodeStats) : String × ℚ × GoError :=
  let best := selectLoop channel
  if best.1 = "" then (best.1, best.2, some "not a single node could be found")
  else (best.1, best.2, none)

/-- Function `getBestRequestTime` (main.go 73-131): result
`(bestNodeFound, lessNodeTime, err)` and the calls made (the probes in launch order,
then the log lines of the failed probes in arrival order). -/
def getBestRequestTime (sysdigApi : Sysdig) (sched : Schedule) (nodes : List String) :
    (String × ℚ × GoError) × List Call :=
  if nodes.length = 0 then
    (("", 0, some "node list must contain at least one element"), [])
  else
    let probes := nodes.flatMap (fun node => (getRequestTime sysdigApi node).2)
    let logs := (nodeStatsErrorsChannel sysdigApi sched nodes).map (fun node =>
      Call.Log ("Error retrieving node \"" ++ node.name ++ "\": \"" ++ node.err.getD "" ++ "\"\n"))
    (selectBest (nodeStatsChannel sysdigApi sched nodes), probes ++ logs)

/-! ## The orchestrator client (`kubernetes` package) -/

/-- Type `KubeNodeMetadata` (kubeNode.go 9-17). -/
structure KubeNodeMetadata where
  Name : String := ""
  SelfLink : String := ""
  Uid : String := ""
  ResourceVersion : String := ""
  CreationTimestamp : String := ""
deriving DecidableEq, Repr

/-- Type `KubeNodeSpec` (kubeNode.go 19-22). -/
structure KubeNodeSpec where
  PodCIDR : String := ""
  ExternalID : String := ""
deriving DecidableEq, Repr

/-- Type `KubeNodeStatusConditions` (kubeNode.go 28-35); `Type` is spelled `Type_`. -/
structure KubeNodeStatusConditions where
  Type_ : String := ""
  Status : String := ""
  LastHeartbeatTime : String := ""
  LastTransitionTime : String := ""
  Reason : String := ""
  Message : String := ""
deriving DecidableEq, Repr

/-- Type `KubeNodeStatus` (kubeNode.go 24-26). -/
structure KubeNodeStatus where
  Conditions : List KubeNodeStatusConditions := []
deriving DecidableEq, Repr

/-- Type `KubeNode` (kubeNode.go 3-7). -/
structure KubeNode where
  Metadata : KubeNodeMetadata := {}
  Spec : KubeNodeSpec := {}
  Status : KubeNodeStatus := {}
deriving DecidableEq, Repr

/-- An `*http.Response` as far as the program reads it: the status code and the result
of decoding the body as a node list (`nodeInfo.Items`, kubernetes.go 106-113). -/
structure Response where
  StatusCode : Int
  Items : Except String (List KubeNode)

/-- Result of running Go code: it returns a value or panics. -/
inductive Outcome (α : Type) where
  | ret (a : α)
  | panic (msg : String)
deriving DecidableEq, Repr

/-- A run of Go code: how it ends and the calls it made, in order. -/
structure Exec (α : Type) where
  result : Outcome α
  calls : List Call

/-- Return a value without any call. -/
def Exec.ret {α : Type} (a : α) : Exec α := ⟨.ret a, []⟩

/-- Panic without any call. -/
def Exec.crash {α : Type} (msg : String) : Exec α := ⟨.panic msg, []⟩

/-- Make one call. -/
def Exec.emit (c : Call) : Exec Unit := ⟨.ret (), [c]⟩

/-- Sequencing: a panic ends the run, the calls made so far are kept. -/
def Exec.bind {α β : Type} (x : Exec α) (f : α → Exec β) : Exec β :=
  match x.result with
  | .ret a => ⟨(f a).result, x.calls ++ (f a).calls⟩
  | .panic msg => ⟨.panic msg, x.calls⟩

instance : Monad Exec where
  pure := Exec.ret
  bind := Exec.bind

/-- The collaborators of one control-loop iteration. `transport` is everything
`Request` does between its arguments and the result of `client.Do` (endpoint and
TLS lookup, `http.NewRequest`, the round trip): a response, or the failure on which
`Request` panics. -/
structure Env where
  schedulerName : String
  sysdigApi : Sysdig
  transport : String → String → List (String × String) → Option Json → Except String Response
  sched : Schedule

/-- Method `Request` (kubernetes.go 68-97). Every failure inside it ends in `log.Panic`
or `panic` (lines 82, 94, 127, 162), so it returns `(response, nil)` or panics. -/
def Request (env : Env) (httpMethod apiMethod : String) (values : List (String × String))
    (body : Option Json) : Exec (Option Response × GoError) :=
  match env.transport httpMethod apiMethod values body with
  | .error e => ⟨.panic e, [Call.Request httpMethod apiMethod values body]⟩
  | .ok response => ⟨.ret (some response, none), [Call.Request httpMethod apiMethod values body]⟩

/-- Method `CreateNamespacedBinding` (kubernetes.go 37-39). -/
def CreateNamespacedBinding (env : Env) (namespace_ : String) (body : Json) :
    Exec (Option Response × GoError) :=
  Request env "POST" ("api/v1/namespaces/" ++ namespace_ ++ "/bindings") [] (some body)

/-- Method `ListNodes` (kubernetes.go 99-115): result `(nodes, err)`. -/
def ListNodes (env : Env) : Exec (List KubeNode × GoError) := do
  let (response, err) ← Request env "GET" "api/v1/nodes" [] none
  match err with
  | some e => return ([], some e)
  | none =>
    match response with
    | none => Exec.crash "invalid memory address or nil pointer dereference"
    | some response =>
      match response.Items with
      | .error e => return ([], some e)
      | .ok items => return (items, none)

/-! ## The control loop (`main.go`) -/

/-- The two nested loops of `nodesAvailable` (main.go 138-144): the name of a node is
appended once for each of its conditions with status `"True"` and type `"Ready"`. -/
def readyNodes (nodes : List KubeNode) : List String :=
  nodes.flatMap (fun node =>
    (node.Status.Conditions.filter
      (fun status => status.Status == "True" && status.Type_ == "Ready")).map
      (fun _ => node.Metadata.Name))

/-- Function `nodesAvailable` (main.go 133-146). -/
def nodesAvailable (env : Env) : Exec (List String) := do
  let (nodes, err) ← ListNodes env
  match err with
  | some e => Exec.emit (Call.Log e)
  | none => pure ()
  return readyNodes nodes

/-- Function `json.Marshal` on the body built by `scheduler`: a map of strings and of
maps of strings always marshals, so the error is `nil`; the bytes are identified with
the value they encode. -/
def jsonMarshal (body : Json) : Json × GoError := (body, none)

/-- Function `scheduler` (main.go 148-169): result `(response, err)`. -/
def scheduler (env : Env) (podName nodeName namespace_ : String) :
    Exec (Option Response × GoError) :=
  let namespace_ := if namespace_ = "" then "default" else namespace_
  let body := Json.obj [
    ("target", Json.obj [
      ("kind", Json.str "Node"),
      ("apiVersion", Json.str "v1"),
      ("name", Json.str nodeName)]),
    ("metadata", Json.obj [
      ("name", Json.str podName)])]
  match jsonMarshal body with
  | (_, some e) => return (none, some e)
  | (data, none) => CreateNamespacedBinding env namespace_ data

/-- Type `event` (main.go 23-36), flattened: `Type_` is `Type`, `Phase` is
`Object.Status.Phase`, `SchedulerName` is `Object.Spec.SchedulerName` and `Name` is
`Object.Metadata.Name`. The default is Go's zero value. -/
structure event where
  Type_ : String := ""
  Phase : String := ""
  SchedulerName : String := ""
  Name : String := ""
deriving DecidableEq, Repr

/-- The members of a JSON record that `json.Unmarshal` stores into an `event`: for each
field, the string the record carries for it, or `none` when the member is absent (or
`null`). -/
structure Members where
  type_ : Option String := none
  phase : Option String := none
  schedulerName : Option String := none
  name : Option String := none
deriving DecidableEq, Repr

/-- One record of the event stream (a line of bytes), as `json.Unmarshal` sees it. -/
inductive Record where
  /-- Not a JSON document: `Unmarshal` reports the syntax error before storing anything. -/
  | malformed (msg : String)
  /-- A JSON document in which a member has a value of the wrong type (a number for
  `phase`, say): `Unmarshal` skips that member, stores the others (`stored`) and
  reports an `UnmarshalTypeError`. -/
  | mistyped (stored : Members) (msg : String)
  /-- A JSON document that decodes without error. -/
  | document (stored : Members)
deriving DecidableEq, Repr

/-- A field after decoding: the member's value, or the old value when the record has no
such member. -/
def storeField (old : String) : Option String → String
  | none => old
  | some v => v

/-- Store the members of a record into the struct the pointer designates. -/
def storeMembers (m : Members) (e : event) : event :=
  { Type_ := storeField e.Type_ m.type_
    Phase := storeField e.Phase m.phase
    SchedulerName := storeField e.SchedulerName m.schedulerName
    Name := storeField e.Name m.name }

/-- Function `json.Unmarshal(data, &event)`: the struct afterwards and the error. -/
def jsonUnmarshal (data : Record) (e : event) : event × GoError :=
  match data with
  | .malformed msg => (e, some msg)
  | .mistyped stored msg => (storeMembers stored e, some msg)
  | .document stored => (storeMembers stored e, none)

/-- The end of the `else` branch of the loop body (main.go 267-270), given what
`scheduler` returned: the error is logged, then `response.Body.Close()` is called on
the response, which dereferences it. -/
def closeBindResponse (r : Option Response × GoError) : Exec Unit := do
  match r.2 with
  | some e => Exec.emit (Call.Log ("Error: " ++ e))
  | none => pure ()
  match r.1 with
  | none => Exec.crash "invalid memory address or nil pointer dereference"
  | some _ => pure ()

/-- The call `getBestRequestTime(nodesAvailable())` of main.go 261: one scheduling
attempt. -/
def schedulingAttempt (env : Env) : Exec (String × ℚ × GoError) := do
  let nodes ← nodesAvailable env
  let r := getBestRequestTime env.sysdigApi env.sched nodes
  ⟨.ret r.1, r.2⟩

/-- The body of the loop of `main` (main.go 252-272) for one record `data`; `e` is the
variable `event`, declared once before the loop (main.go 241), and the result is its
value after the iteration. -/
def iteration (env : Env) (e : event) (data : Record) : Exec event :=
  match jsonUnmarshal data e with
  | (e, some err) => do
    Exec.emit (Call.Log ("Error: " ++ err))
    return e
  | (e, none) =>
    if e.Phase = "Pending" ∧ e.SchedulerName = env.schedulerName ∧ e.Type_ = "ADDED" then do
      Exec.emit (Call.PrintScheduling e.Name)
      let (bestNodeFound, lessNodeTime, err) ← schedulingAttempt env
      match err with
      | some err => Exec.emit (Call.Log ("Error: " ++ err))
      | none =>
        Exec.emit (Call.PrintBestNode bestNodeFound lessNodeTime)
        let r ← scheduler env e.Name bestNodeFound ""
        closeBindResponse r
      return e
    else
      return e

/-- The loop `for data := range ch` of `main` over the records the channel delivers,
starting with `event` equal to `e`. -/
def mainLoop (env : Env) : event → List Record → Exec event
  | e, [] => return e
  | e, data :: rest => do
    let e ← iteration env e data
    mainLoop env e rest

/-- Function `main` (main.go 240-274) on the records delivered by the channel. -/
def main (env : Env) (records : List Record) : Exec event :=
  mainLoop env {} records

/-! ## The event stream (`Watch`, kubernetes.go 41-66) -/

/-- Result of one `reader.ReadLine()` call: a line, or an error. -/
inductive ReadResult where
  | line (data : Record)
  | err (msg : String)
deriving Repr

/-- Where the goroutine started by `Watch` stands: at the head of the `for` loop
(line 56), at the statement after the loop (line 63), or finished. -/
inductive WatchPc where
  | reading
  | closing
  | finished
deriving DecidableEq, Repr

/-- State of the goroutine started by `Watch` and of `responseChannel`: the number of
`ReadLine` calls made, the records sent on the channel, the errors logged and whether
the channel is closed. -/
structure WatchState where
  pc : WatchPc := .reading
  reads : Nat := 0
  sent : List Record := []
  logged : List String := []
  closed : Bool := false
deriving Repr

/-- One step of the goroutine (kubernetes.go 55-63); `conn k` is the result of the
`k`-th `ReadLine` call on the connection. In the loop a read error is logged and the
loop continues, a line is sent and the loop continues; the loop has no exit. After the
loop, the channel is closed. -/
def watchStep (conn : Nat → ReadResult) (s : WatchState) : WatchState :=
  match s.pc with
  | .reading =>
    match conn s.reads with
    | .err msg => { s with reads := s.reads + 1, logged := s.logged ++ [msg] }
    | .line data => { s with reads := s.reads + 1, sent := s.sent ++ [data] }
  | .closing => { s with closed := true, pc := .finished }
  | .finished => s

/-- The goroutine after `n` steps. -/
def watchRun (conn : Nat → ReadResult) : Nat → WatchState → WatchState
  | 0, s => s
  | n + 1, s => watchRun conn n (watchStep conn s)

/-! ## Observations on runs -/

/-- The telemetry probes among the calls of a run. -/
def probesOf (calls : List Call) : List Call := calls.filter Call.isProbe

/-- The bind calls among the calls of a run. -/
def bindsOf (calls : List Call) : List Call := calls.filter Call.isBind

/-- The workload names announced by `fmt.Println("Scheduling", name)` in a run. -/
def schedulingNames (calls : List Call) : List String :=
  calls.filterMap (fun c => match c with
    | .PrintScheduling name => some name
    | _ => none)

/-- The host filters of the telemetry probes of a run, in launch order. -/
def probedFilters (calls : List Call) : List String :=
  calls.filterMap (fun c => match c with
    | .GetData _ _ _ filter _ => some filter
    | _ => none)

/-- Readiness in the words of the specification: a node is ready iff it has a
condition with type `"Ready"` and status `"True"`. -/
def isReady (node : KubeNode) : Bool :=
  node.Status.Conditions.any (fun c => c.Type_ == "Ready" && c.Status == "True")

/-- The number of conditions of a node with type `"Ready"` and status `"True"`. -/
def readyConditions (node : KubeNode) : Nat :=
  (node.Status.Conditions.filter
    (fun status => status.Status == "True" && status.Type_ == "Ready")).length

/-- The event a record carries on its own: the record decoded into a zero-valued
`event`, with the error of the decoding. -/
def carriedEvent (data : Record) : event × GoError :=
  jsonUnmarshal data {}

/-- The probe `getRequestTime` issues for a host name. -/
def probeCall (hostname : String) : Call :=
  Call.GetData (-60) 0 60 ("host.hostName = '" ++ hostname ++ "'") "host"

/-! ## Concrete inputs -/

/-- A telemetry response with status 200 whose first sample is `v`. -/
def sampleResponse (v : ℚ) : Except String MetricDataResponse :=
  .ok { StatusCode := 200, Status := "200 OK", Body := .ok [[v]] }

/-- Telemetry of the specification's example: `A:5`, `B:3`, `C:8`, no data otherwise. -/
def exampleSysdig : Sysdig := fun _ _ _ filter _ =>
  if filter = "host.hostName = 'A'" then sampleResponse 5
  else if filter = "host.hostName = 'B'" then sampleResponse 3
  else if filter = "host.hostName = 'C'" then sampleResponse 8
  else .error "no route to host"

/-- Telemetry in which node `A` reports the value `-1` and node `B` the value `5`. -/
def sentinelSysdig : Sysdig := fun _ _ _ filter _ =>
  if filter = "host.hostName = 'A'" then sampleResponse (-1)
  else if filter = "host.hostName = 'B'" then sampleResponse 5
  else .error "no route to host"

/-- Telemetry backend that fails every query. -/
def downSysdig : Sysdig := fun _ _ _ _ _ => .error "connection refused"

/-- A node with the given name and conditions. -/
def mkNode (name : String) (conditions : List KubeNodeStatusConditions) : KubeNode :=
  { Metadata := { Name := name }, Status := { Conditions := conditions } }

/-- The condition `Ready` with status `True`. -/
def readyTrue : KubeNodeStatusConditions := { Type_ := "Ready", Status := "True" }

/-- The condition `Ready` with status `False`. -/
def readyFalse : KubeNodeStatusConditions := { Type_ := "Ready", Status := "False" }

/-- Orchestrator in which every request succeeds and the inventory is `nodes`. -/
def okTransport (nodes : List KubeNode) :
    String → String → List (String × String) → Option Json → Except String Response :=
  fun _ _ _ _ => .ok { StatusCode := 200, Items := .ok nodes }

/-- Orchestrator whose inventory is `nodes` and whose `POST` requests fail in transport. -/
def bindFailTransport (nodes : List KubeNode) :
    String → String → List (String × String) → Option Json → Except String Response :=
  fun httpMethod _ _ _ =>
    if httpMethod = "POST" then .error "connection refused"
    else .ok { StatusCode := 200, Items := .ok nodes }

/-- Scheduler `s`, ready nodes `A`, `B`, `C` with the example telemetry, every request
succeeds. -/
def exampleEnv : Env :=
  { schedulerName := "s", sysdigApi := exampleSysdig, sched := Schedule.fifo,
    transport := okTransport [mkNode "A" [readyTrue], mkNode "B" [readyTrue],
      mkNode "C" [readyTrue]] }

/-- Scheduler `s`, ready nodes `A` and `B`, telemetry down. -/
def telemetryDownEnv : Env :=
  { schedulerName := "s", sysdigApi := downSysdig, sched := Schedule.fifo,
    transport := okTransport [mkNode "A" [readyTrue], mkNode "B" [readyTrue]] }

/-- Scheduler `s`, ready node `A` with telemetry, bind requests fail in transport. -/
def bindFailEnv : Env :=
  { schedulerName := "s", sysdigApi := exampleSysdig, sched := Schedule.fifo,
    transport := bindFailTransport [mkNode "A" [readyTrue]] }

/-- Inventory in which node `A` carries two `Ready`/`True` conditions and node `N` is not
ready. -/
def duplicateInventory : List KubeNode :=
  [mkNode "A" [readyTrue, readyTrue], mkNode "N" [readyFalse]]

/-- Scheduler `s` over `duplicateInventory`. -/
def duplicateEnv : Env :=
  { schedulerName := "s", sysdigApi := exampleSysdig, sched := Schedule.fifo,
    transport := okTransport duplicateInventory }

/-- Inventory of ten ready nodes and one node that is not ready. -/
def tenReadyInventory : List KubeNode :=
  [mkNode "n0" [readyTrue], mkNode "n1" [readyTrue], mkNode "n2" [readyTrue],
   mkNode "n3" [readyTrue], mkNode "n4" [readyTrue], mkNode "n5" [readyTrue],
   mkNode "n6" [readyTrue], mkNode "n7" [readyTrue], mkNode "n8" [readyTrue],
   mkNode "n9" [readyTrue], mkNode "down" [readyFalse]]

/-- Scheduler `s` over `tenReadyInventory`. -/
def tenReadyEnv : Env :=
  { schedulerName := "s", sysdigApi := exampleSysdig, sched := Schedule.fifo,
    transport := okTransport tenReadyInventory }

/-- The record of an `ADDED` event of the pending workload `p1` of scheduler `s`: a JSON
document with the members `type`, `object.status.phase`, `object.spec.schedulerName`
and `object.metadata.name`. -/
def addedPendingP1 : Record :=
  .document { type_ := some "ADDED", phase := some "Pending", schedulerName := some "s",
              name := some "p1" }

/-- The value of the variable `event` once `main` has handled `addedPendingP1`. -/
def eventAfterP1 : event :=
  { Type_ := "ADDED", Phase := "Pending", SchedulerName := "s", Name := "p1" }

/-- The record whose only member is `type` with value `ADDED`: a JSON document with no
`object` member. -/
def addedOnly : Record := .document { type_ := some "ADDED" }

/-- The record of `addedPendingP1` with the number `7` as the value of `type`: the number
cannot be stored into the string field `Type`, the other members are stored. -/
def mistypedP1 : Record :=
  .mistyped { phase := some "Pending", schedulerName := some "s", name := some "p1" }
    "json: cannot unmarshal number into Go struct field event.type of type string"

/-- The record of a `MODIFIED` event of a running workload `p2` of scheduler `s`. -/
def modifiedRunningP2 : Record :=
  .document { type_ := some "MODIFIED", phase := some "Running", schedulerName := some "s",
              name := some "p2" }

/-- A connection that delivers one line and then has ended: every later read fails
with `EOF`. -/
def endedConn : Nat → ReadResult := fun k =>
  if k = 0 then .line addedPendingP1 else .err "EOF"

/-! ## Lemmas on the selection loop -/

/-- While the samples seen are all above `best`, the running minimum is unset or above
`best`. -/
theorem foldl_selectStep_above (best : nodeStats) (pre : List nodeStats) :
    ∀ acc : String × ℚ, (acc.2 = -1 ∨ best.time < acc.2) →
      (∀ s ∈ pre, best.time < s.time) →
      ((pre.foldl selectStep acc).2 = -1 ∨ best.time < (pre.foldl selectStep acc).2) := by
  induction pre with
  | nil => intro acc h _; simpa using h
  | cons s pre ih =>
    intro acc hacc hpre
    rw [List.foldl_cons]
    apply ih
    · unfold selectStep
      split_ifs with h1 h2
      · right; exact hpre s (List.mem_cons_self _ _)
      · right; exact hpre s (List.mem_cons_self _ _)
      · rcases hacc with h | h
        · exact absurd h h1
        · right; exact h
    · intro t ht; exact hpre t (List.mem_cons_of_mem _ ht)

/-- A running minimum that is unset or above `best` is replaced by `best`. -/
theorem selectStep_take (best : nodeStats) (acc : String × ℚ)
    (hacc : acc.2 = -1 ∨ best.time < acc.2) :
    selectStep acc best = (best.name, best.time) := by
  unfold selectStep
  split_ifs with h1 h2
  · rfl
  · rfl
  · rcases hacc with h | h
    · exact absurd h h1
    · exact absurd h h2

/-- Once `best` is the running minimum and is not the sentinel, samples that are not
below it leave it in place. -/
theorem foldl_selectStep_keep (best : nodeStats) (hb : best.time ≠ -1)
    (post : List nodeStats) (hpost : ∀ s ∈ post, best.time ≤ s.time) :
    post.foldl selectStep (best.name, best.time) = (best.name, best.time) := by
  induction post with
  | nil => rfl
  | cons s post ih =>
    rw [List.foldl_cons]
    have hs : selectStep (best.name, best.time) s = (best.name, best.time) := by
      unfold selectStep
      have h1 : ¬ ((best.name, best.time).2 = -1) := hb
      have h2 : ¬ (s.time < (best.name, best.time).2) :=
        not_lt.mpr (hpost s (List.mem_cons_self _ _))
      rw [if_neg h1, if_neg h2]
    rw [hs]
    exact ih (fun t ht => hpost t (List.mem_cons_of_mem _ ht))

/-- The selection loop returns the earliest sample that attains the minimum, when that
sample's value is not the sentinel. -/
theorem selectLoop_earliest (pre post : List nodeStats) (best : nodeStats)
    (hb : best.time ≠ -1)
    (hpre : ∀ s ∈ pre, best.time < s.time)
    (hpost : ∀ s ∈ post, best.time ≤ s.time) :
    selectLoop (pre ++ best :: post) = (best.name, best.time) := by
  unfold selectLoop
  rw [List.foldl_append, List.foldl_cons]
  have h := foldl_selectStep_above best pre ("", -1) (Or.inl rfl) hpre
  rw [selectStep_take best _ h]
  exact foldl_selectStep_keep best hb post hpost

/-! ## Lemmas on the probes -/

/-- A call of `getRequestTime` makes exactly one `GetData` call, for the host's filter. -/
theorem getRequestTime_calls (sysdigApi : Sysdig) (hostname : String) :
    (getRequestTime sysdigApi hostname).2 = [probeCall hostname] := by
  unfold getRequestTime probeCall
  simp only []
  split
  · rfl
  · split
    · rfl
    · split <;> rfl

/-- The probes launched for a node list: one per element, in order. -/
theorem flatMap_getRequestTime_calls (sysdigApi : Sysdig) (nodes : List String) :
    nodes.flatMap (fun node => (getRequestTime sysdigApi node).2) = nodes.map probeCall := by
  induction nodes with
  | nil => rfl
  | cons a l ih =>
    rw [List.flatMap_cons, List.map_cons, getRequestTime_calls, ih]
    rfl

/-- A goroutine whose probe fails sends on the error channel. -/
theorem probeNode_err_of_fail (sysdigApi : Sysdig) (n : String)
    (h : (getRequestTime sysdigApi n).1.2 ≠ none) :
    (probeNode sysdigApi n).err.isNone = false := by
  unfold probeNode
  split
  · rename_i t heq
    rw [heq] at h; exact absurd rfl h
  · rfl

/-- The probes among the calls of `getBestRequestTime`: one per element of the node
list, in launch order. -/
theorem getBestRequestTime_probes (sysdigApi : Sysdig) (sched : Schedule)
    (nodes : List String) :
    probesOf (getBestRequestTime sysdigApi sched nodes).2 = nodes.map probeCall := by
  unfold getBestRequestTime probesOf
  split_ifs with h
  · have : nodes = [] := List.length_eq_zero.mp h
    subst this; rfl
  · simp only [List.filter_append]
    have h1 := flatMap_getRequestTime_calls sysdigApi nodes
    rw [h1]
    have h2 : List.filter Call.isProbe (nodes.map probeCall) = nodes.map probeCall := by
      rw [List.filter_eq_self]
      intro c hc
      obtain ⟨n, _, rfl⟩ := List.mem_map.mp hc
      rfl
    rw [h2]
    have h3 : ∀ (l : List nodeStats) (f : nodeStats → String),
        List.filter Call.isProbe (l.map (fun node => Call.Log (f node))) = [] := by
      intro l f
      rw [List.filter_eq_nil_iff]
      intro c hc
      obtain ⟨n, _, rfl⟩ := List.mem_map.mp hc
      simp [Call.isProbe]
    rw [h3]
    simp

/-- No call of `getBestRequestTime` is a bind call. -/
theorem getBestRequestTime_no_bind (sysdigApi : Sysdig) (sched : Schedule)
    (nodes : List String) :
    bindsOf (getBestRequestTime sysdigApi sched nodes).2 = [] := by
  unfold getBestRequestTime bindsOf
  split_ifs with h
  · rfl
  · rw [List.filter_eq_nil_iff]
    intro c hc
    rcases List.mem_append.mp hc with hc | hc
    · obtain ⟨n, _, hn⟩ := List.mem_flatMap.mp hc
      rw [getRequestTime_calls] at hn
      rw [List.mem_singleton.mp hn]
      simp [Call.isBind, probeCall]
    · obtain ⟨n, _, rfl⟩ := List.mem_map.mp hc
      simp [Call.isBind]


/-! ## Lemmas on the control loop -/

/-- Sequencing after a run that returned. -/
theorem Exec.bind_of_ret {α β : Type} (x : Exec α) (f : α → Exec β) (a : α)
    (h : x.result = .ret a) :
    x >>= f = ⟨(f a).result, x.calls ++ (f a).calls⟩ := by
  show Exec.bind x f = _
  unfold Exec.bind
  rw [h]

/-- Sequencing after a run that panicked. -/
theorem Exec.bind_of_panic {α β : Type} (x : Exec α) (f : α → Exec β) (msg : String)
    (h : x.result = .panic msg) :
    x >>= f = ⟨.panic msg, x.calls⟩ := by
  show Exec.bind x f = _
  unfold Exec.bind
  rw [h]

/-- What `nodesAvailable` does, by the answer of the orchestrator. -/
theorem nodesAvailable_eq (env : Env) :
    nodesAvailable env =
      match env.transport "GET" "api/v1/nodes" [] none with
      | .error e => ⟨.panic e, [Call.Request "GET" "api/v1/nodes" [] none]⟩
      | .ok r =>
        match r.Items with
        | .error e =>
          ⟨.ret (readyNodes []), [Call.Request "GET" "api/v1/nodes" [] none, Call.Log e]⟩
        | .ok items => ⟨.ret (readyNodes items), [Call.Request "GET" "api/v1/nodes" [] none]⟩ := by
  unfold nodesAvailable ListNodes Request
  cases h : env.transport "GET" "api/v1/nodes" [] none with
  | error e => rfl
  | ok r =>
    cases h2 : r.Items with
    | error e =>
      simp only [bind, Exec.bind, pure, Exec.ret, Exec.emit, h2, List.append_nil, List.nil_append,
        List.cons_append]
    | ok items =>
      simp only [bind, Exec.bind, pure, Exec.ret, Exec.emit, h2, List.append_nil, List.nil_append,
        List.cons_append]

/-- The calls of `nodesAvailable` contain no probe and no bind call. -/
theorem nodesAvailable_calls (env : Env) :
    probesOf (nodesAvailable env).calls = [] ∧ bindsOf (nodesAvailable env).calls = [] := by
  rw [nodesAvailable_eq]
  cases h : env.transport "GET" "api/v1/nodes" [] none with
  | error e => simp [probesOf, bindsOf, Call.isProbe, Call.isBind]
  | ok r =>
    cases h2 : r.Items with
    | error e => simp [h2, probesOf, bindsOf, Call.isProbe, Call.isBind]
    | ok items => simp [h2, probesOf, bindsOf, Call.isProbe, Call.isBind]


/-- One scheduling attempt when the inventory query returns. -/
theorem schedulingAttempt_of_ret (env : Env) (nodes : List String)
    (h : (nodesAvailable env).result = .ret nodes) :
    schedulingAttempt env =
      ⟨.ret (getBestRequestTime env.sysdigApi env.sched nodes).1,
        (nodesAvailable env).calls ++ (getBestRequestTime env.sysdigApi env.sched nodes).2⟩ := by
  unfold schedulingAttempt
  rw [Exec.bind_of_ret _ _ nodes h]

/-- One scheduling attempt when the inventory query panics. -/
theorem schedulingAttempt_of_panic (env : Env) (msg : String)
    (h : (nodesAvailable env).result = .panic msg) :
    schedulingAttempt env = ⟨.panic msg, (nodesAvailable env).calls⟩ := by
  unfold schedulingAttempt
  rw [Exec.bind_of_panic _ _ msg h]

/-- The name of a node is listed once per `Ready`/`True` condition. -/
theorem readyNodes_cons (node : KubeNode) (rest : List KubeNode) :
    readyNodes (node :: rest) =
      List.replicate (readyConditions node) node.Metadata.Name ++ readyNodes rest := by
  unfold readyNodes readyConditions
  rw [List.flatMap_cons]
  congr 1
  generalize node.Status.Conditions.filter _ = l
  induction l with
  | nil => rfl
  | cons a l ih => simp [List.replicate_succ, ih]

/-- A node is ready iff it has at least one `Ready`/`True` condition. -/
theorem isReady_iff (node : KubeNode) : isReady node = true ↔ 0 < readyConditions node := by
  unfold isReady readyConditions
  rw [List.length_pos, List.any_eq_true]
  constructor
  · rintro ⟨c, hc, hp⟩ hnil
    have : c ∈ node.Status.Conditions.filter
        (fun status => status.Status == "True" && status.Type_ == "Ready") := by
      rw [List.mem_filter]
      refine ⟨hc, ?_⟩
      rw [Bool.and_comm]; exact hp
    rw [hnil] at this
    exact List.not_mem_nil _ this
  · intro hne
    obtain ⟨c, hc⟩ := List.exists_mem_of_ne_nil _ hne
    rw [List.mem_filter] at hc
    refine ⟨c, hc.1, ?_⟩
    rw [Bool.and_comm]; exact hc.2

/-- When no node has more than one `Ready`/`True` condition, `nodesAvailable` lists
exactly the ready nodes, each once, in inventory order. -/
theorem readyNodes_of_unique (nodes : List KubeNode)
    (huniq : ∀ node ∈ nodes, readyConditions node ≤ 1) :
    readyNodes nodes = (nodes.filter isReady).map (fun node => node.Metadata.Name) := by
  induction nodes with
  | nil => rfl
  | cons node rest ih =>
    rw [readyNodes_cons, ih (fun n hn => huniq n (List.mem_cons_of_mem _ hn))]
    have h1 := huniq node (List.mem_cons_self _ _)
    by_cases hr : isReady node = true
    · have hpos := (isReady_iff node).mp hr
      have h1eq : readyConditions node = 1 := by omega
      rw [List.filter_cons_of_pos hr, h1eq]
      rfl
    · have h0 : readyConditions node = 0 := by
        by_contra hne
        exact hr ((isReady_iff node).mpr (Nat.pos_of_ne_zero hne))
      rw [List.filter_cons_of_neg hr, h0]
      rfl

/-- A step inside the read loop stays inside the read loop and leaves the channel as it
is. -/
theorem watchStep_reading (conn : Nat → ReadResult) (s : WatchState)
    (h : s.pc = .reading) :
    (watchStep conn s).pc = .reading ∧ (watchStep conn s).closed = s.closed := by
  unfold watchStep
  rw [h]
  simp only []
  split <;> exact ⟨rfl, rfl⟩

/-- The goroutine started by `Watch` never leaves the read loop, so the channel stays
open. -/
theorem watchRun_reading (conn : Nat → ReadResult) :
    ∀ (n : Nat) (s : WatchState), s.pc = .reading → s.closed = false →
      (watchRun conn n s).pc = .reading ∧ (watchRun conn n s).closed = false := by
  intro n
  induction n with
  | zero => intro s h1 h2; exact ⟨h1, h2⟩
  | succ n ih =>
    intro s h1 h2
    unfold watchRun
    have hs := watchStep_reading conn s h1
    exact ih _ hs.1 (hs.2.trans h2)

/-- Once every read fails, no further record is sent. -/
theorem watchRun_sent_of_ended (conn : Nat → ReadResult) (k : Nat)
    (hend : ∀ i, k ≤ i → ∃ msg, conn i = .err msg) :
    ∀ (n : Nat) (s : WatchState), s.pc = .reading → k ≤ s.reads →
      (watchRun conn n s).sent = s.sent := by
  intro n
  induction n with
  | zero => intro s _ _; rfl
  | succ n ih =>
    intro s h1 h2
    unfold watchRun
    obtain ⟨msg, hmsg⟩ := hend s.reads h2
    have hstep : watchStep conn s =
        { s with reads := s.reads + 1, logged := s.logged ++ [msg] } := by
      unfold watchStep
      rw [h1]
      simp only [hmsg]
    rw [hstep]
    exact ih _ h1 (Nat.le_succ_of_le h2)


/-- When every probe of a non-empty node list fails, the success channel is empty and
`getBestRequestTime` returns the error of line 127. -/
theorem getBestRequestTime_all_fail (sysdigApi : Sysdig) (sched : Schedule)
    (nodes : List String) (hne : nodes ≠ [])
    (hfail : ∀ n ∈ nodes, (getRequestTime sysdigApi n).1.2 ≠ none) :
    (getBestRequestTime sysdigApi sched nodes).1 =
      ("", -1, some "not a single node could be found") := by
  unfold getBestRequestTime
  have hlen : ¬ nodes.length = 0 := fun h => hne (List.length_eq_zero.mp h)
  rw [if_neg hlen]
  have hch : nodeStatsChannel sysdigApi sched nodes = [] := by
    unfold nodeStatsChannel
    rw [List.filter_eq_nil_iff]
    intro s hs
    obtain ⟨n, hn, rfl⟩ := List.mem_map.mp hs
    have hmem : n ∈ nodes := (sched.perm nodes).subset hn
    rw [probeNode_err_of_fail sysdigApi n (hfail n hmem)]
    simp
  simp only [hch]
  rfl

/-- The calls of one iteration whose scheduling attempt ends with an error contain no
bind call. -/
theorem iteration_no_bind_of_error (env : Env) (e : event) (data : Record)
    (nodes : List String) (msg : String)
    (hinv : (nodesAvailable env).result = .ret nodes)
    (herr : (getBestRequestTime env.sysdigApi env.sched nodes).1.2.2 = some msg) :
    bindsOf (iteration env e data).calls = [] := by
  unfold iteration
  rcases hj : jsonUnmarshal data e with ⟨e', err⟩
  cases err with
  | some err => simp [bind, Exec.bind, pure, Exec.ret, Exec.emit, bindsOf, Call.isBind]
  | none =>
    simp only []
    split_ifs with hf
    · rw [schedulingAttempt_of_ret env nodes hinv]
      rcases hg : (getBestRequestTime env.sysdigApi env.sched nodes).1 with ⟨b, t, err⟩
      rw [hg] at herr
      simp only [] at herr
      subst herr
      have h1 := (nodesAvailable_calls env).2
      have h2 := getBestRequestTime_no_bind env.sysdigApi env.sched nodes
      simp only [bindsOf] at h1 h2 ⊢
      simp [bind, Exec.bind, pure, Exec.ret, Exec.emit, Call.isBind, h1, h2, List.filter_append]
    · simp [bind, Exec.bind, pure, Exec.ret, bindsOf]


/-- When the record decodes and the variable `event`, after the record was stored into
it, has a type other than `ADDED`, or a phase other than `Pending`, or a scheduler name
other than the configured one, the iteration makes no probe and no bind call. -/
theorem iteration_skips_when_filter_false (env : Env) (e stored : event) (data : Record)
    (hdec : jsonUnmarshal data e = (stored, none))
    (hskip : stored.Type_ ≠ "ADDED" ∨ stored.Phase ≠ "Pending" ∨
      stored.SchedulerName ≠ env.schedulerName) :
    probesOf (iteration env e data).calls = [] ∧
    bindsOf (iteration env e data).calls = [] := by
  unfold iteration
  rw [hdec]
  simp only []
  have hf : ¬ (stored.Phase = "Pending" ∧ stored.SchedulerName = env.schedulerName ∧
      stored.Type_ = "ADDED") := by
    rintro ⟨h1, h2, h3⟩
    rcases hskip with h | h | h
    · exact h h3
    · exact h h1
    · exact h h2
  rw [if_neg hf]
  exact ⟨rfl, rfl⟩

/-! ## The claims -/

/-- C1, evaluated on the code: with successful samples `A:-1` and `B:5` observed in the
order `A`, `B`, `getBestRequestTime` returns `(B, 5)` without error although the
successful sample of `A` has the strictly smaller value `-1`; observed in the order
`B`, `A` the same samples give `(A, -1)`. The samples `A:5`, `B:3`, `C:8` of the
specification give `(B, 3)`. -/
theorem getBestRequestTime_sentinel_hides_minimum :
    (getBestRequestTime sentinelSysdig Schedule.fifo ["A", "B"]).1 = ("B", 5, none) ∧
    probeNode sentinelSysdig "A" = { name := "A", time := -1, err := none } ∧
    (probeNode sentinelSysdig "A").time < 5 ∧
    (getBestRequestTime sentinelSysdig Schedule.lifo ["A", "B"]).1 = ("A", -1, none) ∧
    (getBestRequestTime exampleSysdig Schedule.fifo ["A", "B", "C"]).1 = ("B", 3, none) ∧
    (getBestRequestTime exampleSysdig Schedule.lifo ["A", "B", "C"]).1 = ("B", 3, none) := by
  refine ⟨by decide, by decide, by decide, by decide, by decide, by decide⟩

/-- C2: for a non-empty node list whose probes all fail, `getBestRequestTime` returns a
non-nil error under every completion order, and the control-loop iteration whose
inventory is that node list makes no bind call. -/
theorem all_probes_fail_error_and_no_bind (env : Env) (sched : Schedule)
    (nodes : List String) (e : event) (data : Record)
    (hne : nodes ≠ [])
    (hfail : ∀ n ∈ nodes, (getRequestTime env.sysdigApi n).1.2 ≠ none)
    (hinv : (nodesAvailable env).result = .ret nodes) :
    (getBestRequestTime env.sysdigApi sched nodes).1.2.2 ≠ none ∧
    bindsOf (iteration env e data).calls = [] := by
  constructor
  · rw [getBestRequestTime_all_fail env.sysdigApi sched nodes hne hfail]
    simp
  · apply iteration_no_bind_of_error env e data nodes "not a single node could be found" hinv
    rw [getBestRequestTime_all_fail env.sysdigApi env.sched nodes hne hfail]

/-- C2 at a concrete input: ready nodes `A` and `B`, telemetry backend down, an `ADDED`
`Pending` event of the configured scheduler. -/
theorem all_probes_fail_error_and_no_bind_witness :
    (["A", "B"] ≠ [] ∧
      (∀ n ∈ ["A", "B"], (getRequestTime telemetryDownEnv.sysdigApi n).1.2 ≠ none) ∧
      (nodesAvailable telemetryDownEnv).result = .ret ["A", "B"]) ∧
    ((getBestRequestTime telemetryDownEnv.sysdigApi Schedule.lifo ["A", "B"]).1.2.2 ≠ none ∧
      bindsOf (iteration telemetryDownEnv {} addedPendingP1).calls = []) :=
  ⟨⟨by decide, by decide, by decide⟩,
    all_probes_fail_error_and_no_bind telemetryDownEnv Schedule.lifo ["A", "B"] {}
      addedPendingP1 (by decide) (by decide) (by decide)⟩

/-- C3, evaluated on the code: for an `ADDED` `Pending` event of the configured scheduler
with a ready node and a successful probe, a bind request that fails in transport makes
the iteration panic (inside `Request`, which calls `log.Panic`), after the bind call
was issued; and when `scheduler` returns an error with no response, the statement
`response.Body.Close()` of main.go 270 panics after the error is logged. -/
theorem bind_failure_panics :
    (iteration bindFailEnv {} addedPendingP1).result = .panic "connection refused" ∧
    (bindsOf (iteration bindFailEnv {} addedPendingP1).calls).length = 1 ∧
    (closeBindResponse (none, some "connection refused")).result =
      .panic "invalid memory address or nil pointer dereference" ∧
    (main bindFailEnv [addedPendingP1, addedPendingP1]).result =
      .panic "connection refused" ∧
    schedulingNames (main bindFailEnv [addedPendingP1, addedPendingP1]).calls = ["p1"] := by
  refine ⟨by decide, by decide, by decide, by decide, by decide⟩

/-- C4, evaluated on the code: the streams `[r1, r2]` and `[r2]` end in the same record
`r2` (a document with only `type` `ADDED`), yet for `r2` the loop schedules workload
`p1` in the first stream (the fields of `r1` are still in `event`) and skips it in the
second; the same happens when the earlier record is one that fails to decode. -/
theorem stale_event_fields_change_decision :
    schedulingNames (main exampleEnv [addedOnly]).calls = [] ∧
    (bindsOf (main exampleEnv [addedOnly]).calls).length = 0 ∧
    schedulingNames (main exampleEnv [addedPendingP1]).calls = ["p1"] ∧
    schedulingNames (main exampleEnv [addedPendingP1, addedOnly]).calls = ["p1", "p1"] ∧
    (bindsOf (main exampleEnv [addedPendingP1, addedOnly]).calls).length = 2 ∧
    (jsonUnmarshal mistypedP1 {}).2 ≠ none ∧
    schedulingNames (main exampleEnv [mistypedP1]).calls = [] ∧
    schedulingNames (main exampleEnv [mistypedP1, addedOnly]).calls = ["p1"] ∧
    (bindsOf (main exampleEnv [mistypedP1, addedOnly]).calls).length = 1 := by
  refine ⟨by decide, by decide, by decide, by decide, by decide, by decide, by decide,
    by decide, by decide⟩

/-- C5, evaluated on the code: the record whose only member is `type` with value `ADDED`
decodes without error to an event whose phase and scheduler name are empty, so its phase
is not `Pending` and its scheduler name is not the configured `s`. Handled first in the
stream it causes no call; handled after the record of workload `p1`, whose fields are
still in the variable `event`, the iteration issues three telemetry probes and one bind
call. -/
theorem partial_record_probed_and_bound :
    carriedEvent addedOnly = ({ Type_ := "ADDED" }, none) ∧
    (carriedEvent addedOnly).1.Phase ≠ "Pending" ∧
    (carriedEvent addedOnly).1.SchedulerName ≠ exampleEnv.schedulerName ∧
    (iteration exampleEnv {} addedOnly).calls.length = 0 ∧
    (main exampleEnv [addedPendingP1]).result = .ret eventAfterP1 ∧
    (jsonUnmarshal addedOnly eventAfterP1).1 = eventAfterP1 ∧
    schedulingNames (iteration exampleEnv eventAfterP1 addedOnly).calls = ["p1"] ∧
    (probesOf (iteration exampleEnv eventAfterP1 addedOnly).calls).length = 3 ∧
    (bindsOf (iteration exampleEnv eventAfterP1 addedOnly).calls).length = 1 := by
  refine ⟨by decide, by decide, by decide, by decide, by decide, by decide, by decide,
    by decide, by decide⟩

/-- C6 as stated fails: in an inventory where node `A` carries two conditions with type
`Ready` and status `True` (and node `N` is not ready), one scheduling attempt issues two
probes, both for `A`, while the snapshot has one ready node. -/
theorem duplicate_condition_probed_twice :
    (duplicateInventory.filter isReady).map (fun node => node.Metadata.Name) = ["A"] ∧
    probedFilters (schedulingAttempt duplicateEnv).calls =
      ["host.hostName = 'A'", "host.hostName = 'A'"] ∧
    (probesOf (schedulingAttempt duplicateEnv).calls).length = 2 ∧
    (duplicateInventory.filter isReady).length = 1 := by
  refine ⟨by decide, by decide, by decide, by decide⟩

/-- C6, amended: for every inventory response in which no node has more than one
condition with type `Ready` and status `True`, one scheduling attempt issues exactly the
probes of the ready nodes, one per ready node in inventory order and none for any other
node, so the number of probes is the number of ready nodes. -/
theorem attempt_probes_ready_nodes (env : Env) (r : Response) (nodes : List KubeNode)
    (hresp : env.transport "GET" "api/v1/nodes" [] none = .ok r)
    (hitems : r.Items = .ok nodes)
    (huniq : ∀ node ∈ nodes, readyConditions node ≤ 1) :
    probesOf (schedulingAttempt env).calls =
      (nodes.filter isReady).map (fun node => probeCall node.Metadata.Name) ∧
    (probesOf (schedulingAttempt env).calls).length = (nodes.filter isReady).length := by
  have hna : nodesAvailable env =
      ⟨.ret (readyNodes nodes), [Call.Request "GET" "api/v1/nodes" [] none]⟩ := by
    rw [nodesAvailable_eq, hresp]
    simp only [hitems]
  have hres : (nodesAvailable env).result = .ret (readyNodes nodes) := by rw [hna]
  have hmain : probesOf (schedulingAttempt env).calls =
      (nodes.filter isReady).map (fun node => probeCall node.Metadata.Name) := by
    rw [schedulingAttempt_of_ret env _ hres]
    have h1 := (nodesAvailable_calls env).1
    have h2 := getBestRequestTime_probes env.sysdigApi env.sched (readyNodes nodes)
    simp only [probesOf] at h1 h2 ⊢
    rw [List.filter_append, h1, h2, List.nil_append, readyNodes_of_unique nodes huniq,
      List.map_map]
    rfl
  refine ⟨hmain, ?_⟩
  rw [hmain, List.length_map]

/-- C6 amended, at a concrete input: ten ready nodes and one that is not ready give
exactly ten probes. -/
theorem attempt_probes_ready_nodes_witness :
    (tenReadyEnv.transport "GET" "api/v1/nodes" [] none =
        .ok { StatusCode := 200, Items := .ok tenReadyInventory } ∧
      (∀ node ∈ tenReadyInventory, readyConditions node ≤ 1) ∧
      (tenReadyInventory.filter isReady).length = 10) ∧
    (probesOf (schedulingAttempt tenReadyEnv).calls =
        (tenReadyInventory.filter isReady).map (fun node => probeCall node.Metadata.Name) ∧
      (probesOf (schedulingAttempt tenReadyEnv).calls).length =
        (tenReadyInventory.filter isReady).length) :=
  ⟨⟨rfl, by decide, by decide⟩,
    attempt_probes_ready_nodes tenReadyEnv { StatusCode := 200, Items := .ok tenReadyInventory }
      tenReadyInventory rfl rfl (by decide)⟩

/-- C7: for every workload name `p`, node name `n` and namespace `ns`, `scheduler` makes
exactly one request, a `POST` to `api/v1/namespaces/<ns>/bindings` with `default` for
an empty `ns`, whose body is the object with members `target` (`kind` `Node`,
`apiVersion` `v1`, `name` `n`) and `metadata` (`name` `p`) and nothing else; for
workload `pod-a`, node `node-1` and no namespace the path is
`api/v1/namespaces/default/bindings`. -/
theorem scheduler_posts_one_binding :
    (∀ (env : Env) (p n ns : String),
      (scheduler env p n ns).calls =
        [Call.Request "POST"
          ("api/v1/namespaces/" ++ (if ns = "" then "default" else ns) ++ "/bindings") []
          (some (Json.obj [
            ("target", Json.obj [("kind", Json.str "Node"), ("apiVersion", Json.str "v1"),
              ("name", Json.str n)]),
            ("metadata", Json.obj [("name", Json.str p)])]))]) ∧
    (∀ env : Env,
      (scheduler env "pod-a" "node-1" "").calls =
        [Call.Request "POST" "api/v1/namespaces/default/bindings" []
          (some (Json.obj [
            ("target", Json.obj [("kind", Json.str "Node"), ("apiVersion", Json.str "v1"),
              ("name", Json.str "node-1")]),
            ("metadata", Json.obj [("name", Json.str "pod-a")])]))]) := by
  have key : ∀ (env : Env) (p n ns : String),
      (scheduler env p n ns).calls =
        [Call.Request "POST"
          ("api/v1/namespaces/" ++ (if ns = "" then "default" else ns) ++ "/bindings") []
          (some (Json.obj [
            ("target", Json.obj [("kind", Json.str "Node"), ("apiVersion", Json.str "v1"),
              ("name", Json.str n)]),
            ("metadata", Json.obj [("name", Json.str p)])]))] := by
    intro env p n ns
    unfold scheduler jsonMarshal CreateNamespacedBinding Request
    simp only []
    split <;> rfl
  refine ⟨key, ?_⟩
  intro env
  rw [key]
  rfl

/-- C8: called with an empty node list, `getBestRequestTime` returns a non-nil error and
makes no call at all, so no probe. -/
theorem getBestRequestTime_empty (sysdigApi : Sysdig) (sched : Schedule) :
    (getBestRequestTime sysdigApi sched []).1.2.2 ≠ none ∧
    (getBestRequestTime sysdigApi sched []).2 = [] ∧
    probesOf (getBestRequestTime sysdigApi sched []).2 = [] := by
  refine ⟨?_, rfl, rfl⟩
  simp [getBestRequestTime]

/-- C9, evaluated on the code: on a connection that delivers one record and then has
ended (every later read fails with `EOF`), the goroutine of `Watch` sends no further
record, but after any number of steps it is still in the read loop and the channel is
not closed; each failed read is logged and retried. -/
theorem watch_never_closes_channel :
    ∀ n : Nat,
      (watchRun endedConn n {}).closed = false ∧
      (watchRun endedConn n {}).pc = .reading ∧
      (watchRun endedConn (n + 1) {}).sent = [addedPendingP1] ∧
      (watchRun endedConn (n + 1) {}).logged.length = n := by
  intro n
  have h := watchRun_reading endedConn n {} rfl rfl
  refine ⟨h.2, h.1, ?_, ?_⟩
  · have hend : ∀ i, 1 ≤ i → ∃ msg, endedConn i = .err msg := by
      intro i hi
      refine ⟨"EOF", ?_⟩
      unfold endedConn
      rw [if_neg (by omega)]
    exact watchRun_sent_of_ended endedConn 1 hend n (watchStep endedConn {}) rfl
      (Nat.le_refl 1)
  · have hlog : ∀ (m : Nat) (s : WatchState), s.pc = .reading → 1 ≤ s.reads →
        (watchRun endedConn m s).logged.length = s.logged.length + m := by
      intro m
      induction m with
      | zero => intro s _ _; rfl
      | succ m ih =>
        intro s h1 h2
        unfold watchRun
        have hstep : watchStep endedConn s =
            { s with reads := s.reads + 1, logged := s.logged ++ ["EOF"] } := by
          unfold watchStep
          rw [h1]
          have : endedConn s.reads = .err "EOF" := by
            unfold endedConn
            rw [if_neg (by omega)]
          simp only [this]
        rw [hstep]
        have hnext := ih { s with reads := s.reads + 1, logged := s.logged ++ ["EOF"] } h1
          (Nat.le_succ_of_le h2)
        rw [hnext]
        simp only [List.length_append, List.length_singleton]
        omega
    have hrun := hlog n (watchStep endedConn {}) rfl (Nat.le_refl 1)
    have hzero : (watchStep endedConn {}).logged.length = 0 := rfl
    show (watchRun endedConn n (watchStep endedConn {})).logged.length = n
    rw [hrun, hzero]
    omega

/-- C10: for every sequence of successful samples in observation order in which no value
is `-1` and no node name is empty, the selection of `getBestRequestTime` returns, with
no error, the name and value of the earliest sample that attains the minimum: the
sample `best` such that every earlier sample is strictly above it and no later sample
is below it. -/
theorem selectBest_earliest_minimum (channel pre post : List nodeStats) (best : nodeStats)
    (hsplit : channel = pre ++ best :: post)
    (hsentinel : ∀ s ∈ channel, s.time ≠ -1)
    (hname : ∀ s ∈ channel, s.name ≠ "")
    (hpre : ∀ s ∈ pre, best.time < s.time)
    (hpost : ∀ s ∈ post, best.time ≤ s.time) :
    selectBest channel = (best.name, best.time, none) := by
  subst hsplit
  have hmem : best ∈ pre ++ best :: post :=
    List.mem_append_right _ (List.mem_cons_self _ _)
  unfold selectBest
  simp only [selectLoop_earliest pre post best (hsentinel best hmem) hpre hpost]
  rw [if_neg (hname best hmem)]

/-- C10 at a concrete input: samples `A:5`, `B:3`, `C:3`, `D:8` in this order; the tie
between `B` and `C` goes to `B`, observed first. -/
theorem selectBest_earliest_minimum_witness :
    ((∀ s ∈ ([⟨"A", 5, none⟩, ⟨"B", 3, none⟩, ⟨"C", 3, none⟩, ⟨"D", 8, none⟩] :
        List nodeStats), s.time ≠ -1) ∧
      (∀ s ∈ ([⟨"A", 5, none⟩, ⟨"B", 3, none⟩, ⟨"C", 3, none⟩, ⟨"D", 8, none⟩] :
        List nodeStats), s.name ≠ "")) ∧
    selectBest [⟨"A", 5, none⟩, ⟨"B", 3, none⟩, ⟨"C", 3, none⟩, ⟨"D", 8, none⟩] =
      ("B", 3, none) :=
  ⟨⟨by decide, by decide⟩,
    selectBest_earliest_minimum _ [⟨"A", 5, none⟩] [⟨"C", 3, none⟩, ⟨"D", 8, none⟩]
      ⟨"B", 3, none⟩ rfl (by decide) (by decide) (by decide) (by decide)⟩

end SysdigScheduler
